import Mathlib

/-!
# Verification of the connection session manager (`src/src/hooks/useSocket.ts`)

A shallow embedding of the `useSocket` hook: its React state (`isConnected`,
`isConnecting`, `connectionQuality`), its refs (`reconnectAttempts`,
`lastPingTime`, `pingIntervalRef`), the transport (socket.io) connected flag,
the six registered event handlers (`handleConnect`, `handleDisconnect`,
`handleConnectError`, `handleReconnect`, `handleReconnectAttempt`,
`handlePong`), the `ensureConnected` readiness-wait primitive and the effect
cleanup / token-cleared teardown paths.

The presence-store collaborator (`offlineMessageService.setOnlineStatus`) is
modelled as an accumulating list `onlineCalls` of the boolean arguments of the
calls, in call order.  Timestamps are `Nat` milliseconds (`Date.now()`), and
JavaScript subtraction `now - lastPingTime` is modelled by truncated `Nat`
subtraction (the code always subtracts an earlier reading of the same clock).

Heartbeat timers: `pingIntervalRef` holds at most one interval id; we model
the ref by the flag `pingRefSet` and separately count the live (not yet
cleared) intervals in `liveIntervals`, so that double registration or a leaked
interval would be visible as `liveIntervals > 1` or as a nonzero count while
disconnected.  `clearInterval` on an already-cleared id is a no-op, which the
truncated subtraction on `Nat` reproduces.

Transport event validity: socket.io-client only emits `disconnect` for a
connected socket, and only emits `connect_error` / `reconnect_attempt` while
the socket is not connected (they belong to failed connection attempts).
`validEvent` records exactly these three facts; all other events and all
manager operations are unconstrained.
-/

/-- Connection quality as in the `connectionQuality` React state:
`'good' | 'poor' | 'disconnected'`. -/
inductive Quality where
  | good
  | poor
  | disconnected
deriving DecidableEq, Repr

/-- The spec's `connectionState` enum (Disconnected, Connecting, Connected),
read off the manager's two boolean flags. -/
inductive ConnState where
  | disconnected
  | connecting
  | connected
deriving DecidableEq, Repr

/-- Outcome of the synchronous part of `ensureConnected`: the promise either
settles immediately (`resolvedTrue` / `resolvedFalse`) or stays `pending`
with a one-shot `connect` listener and a 10 s timeout installed. -/
inductive EnsureOutcome where
  | resolvedTrue
  | resolvedFalse
  | pending
deriving DecidableEq, Repr

/-- The state of one `useSocket` session after the effect body has run with a
non-empty token.  `socketExists` is `socketRef.current ≠ null`,
`socketConnected` the transport's own `socket.connected` flag,
`registeredHandlers` the event names whose handler from the effect body is
currently attached, `extraConnectListeners` the number of one-shot `connect`
listeners installed by pending `ensureConnected` calls, and `onlineCalls` the
accumulated arguments of `offlineMessageService.setOnlineStatus` calls. -/
structure SocketState where
  socketExists : Bool
  socketConnected : Bool
  isConnected : Bool
  isConnecting : Bool
  connectionQuality : Quality
  reconnectAttempts : Nat
  lastPingTime : Nat
  pingRefSet : Bool
  liveIntervals : Nat
  registeredHandlers : List String
  extraConnectListeners : Nat
  connectRequested : Bool
  lastLoggedLatency : Nat
  onlineCalls : List Bool
deriving DecidableEq, Repr

/-- `maxReconnectAttempts = 10` (line 65). -/
def maxReconnectAttempts : Nat := 10

/-- The spec's state machine state: Connected iff `isConnected`, else
Connecting iff `isConnecting`, else Disconnected. -/
def connectionState (s : SocketState) : ConnState :=
  if s.isConnected then ConnState.connected
  else if s.isConnecting then ConnState.connecting
  else ConnState.disconnected

/-- The six events the effect body subscribes to (lines 260-265). -/
def subscribedEvents : List String :=
  ["connect", "disconnect", "connect_error", "reconnect", "reconnect_attempt", "pong"]

/-- State right after the effect body ran with a non-empty token (lines
160-266): fresh socket, `isConnecting` set true, all six handlers attached,
everything else at its initial value. -/
def initState : SocketState :=
  { socketExists := true
    socketConnected := false
    isConnected := false
    isConnecting := true
    connectionQuality := Quality.disconnected
    reconnectAttempts := 0
    lastPingTime := 0
    pingRefSet := false
    liveIntervals := 0
    registeredHandlers := subscribedEvents
    extraConnectListeners := 0
    connectRequested := false
    lastLoggedLatency := 0
    onlineCalls := [] }

/-- `checkConnectionQuality` (lines 71-85): if the socket is absent or not
connected, quality is `disconnected`; otherwise classify
`Date.now() - lastPingTime.current` by the 500 ms / 2000 ms thresholds. -/
def checkConnectionQuality (now : Nat) (s : SocketState) : SocketState :=
  if !(s.socketExists && s.socketConnected) then
    { s with connectionQuality := Quality.disconnected }
  else
    let pingTime := now - s.lastPingTime
    if pingTime < 500 then { s with connectionQuality := Quality.good }
    else if pingTime < 2000 then { s with connectionQuality := Quality.poor }
    else { s with connectionQuality := Quality.disconnected }

/-- `sendPing` (lines 88-93): when connected, record `lastPingTime := now`
and emit a ping (the emission itself has no manager-visible state). -/
def sendPing (now : Nat) (s : SocketState) : SocketState :=
  if s.socketExists && s.socketConnected then { s with lastPingTime := now } else s

/-- The `if (pingIntervalRef.current) { clearInterval(...); pingIntervalRef.current = null }`
block of `handleDisconnect` (lines 212-215). -/
def clearPing (s : SocketState) : SocketState :=
  if s.pingRefSet then
    { s with liveIntervals := s.liveIntervals - 1, pingRefSet := false }
  else s

/-- `handleConnect` (lines 183-202): set Connected, quality good, reset the
attempt counter, notify the presence store `online = true`, clear any
pre-existing heartbeat interval, register a fresh 5 s interval, and send an
immediate ping. -/
def handleConnect (now : Nat) (s : SocketState) : SocketState :=
  let s1 := { s with
    isConnected := true
    isConnecting := false
    connectionQuality := Quality.good
    reconnectAttempts := 0
    onlineCalls := s.onlineCalls ++ [true] }
  let s2 := { s1 with
    liveIntervals := (if s1.pingRefSet then s1.liveIntervals - 1 else s1.liveIntervals) + 1
    pingRefSet := true }
  sendPing now s2

/-- `handleDisconnect` (lines 204-227): leave Connected, quality
disconnected, notify `online = false`, cancel the heartbeat interval; for a
non-local reason set `isConnecting`, bump the attempt counter, and drop
`isConnecting` again once the counter reaches `maxReconnectAttempts`. -/
def handleDisconnect (reason : String) (s : SocketState) : SocketState :=
  let s1 := { s with
    isConnected := false
    connectionQuality := Quality.disconnected
    onlineCalls := s.onlineCalls ++ [false] }
  let s2 := clearPing s1
  if reason ≠ "io client disconnect" then
    let s3 := { s2 with
      isConnecting := true
      reconnectAttempts := s2.reconnectAttempts + 1 }
    if maxReconnectAttempts ≤ s3.reconnectAttempts then
      { s3 with isConnecting := false }
    else s3
  else s2

/-- `handleConnectError` (lines 229-238): drop both flags, quality
disconnected, bump the attempt counter, notify `online = false`.  The
heartbeat interval is not touched here. -/
def handleConnectError (s : SocketState) : SocketState :=
  { s with
    isConnected := false
    isConnecting := false
    connectionQuality := Quality.disconnected
    reconnectAttempts := s.reconnectAttempts + 1
    onlineCalls := s.onlineCalls ++ [false] }

/-- `handleReconnect` (lines 240-246): clear `isConnecting` and notify
`online = true`. -/
def handleReconnect (s : SocketState) : SocketState :=
  { s with isConnecting := false, onlineCalls := s.onlineCalls ++ [true] }

/-- `handleReconnectAttempt` (lines 248-251): set `isConnecting`. -/
def handleReconnectAttempt (s : SocketState) : SocketState :=
  { s with isConnecting := true }

/-- `handlePong` (lines 253-257): log the latency computed from the payload
timestamp (JavaScript `data.timestamp || lastPingTime.current`, where a
missing or zero timestamp falls back to the ref), then recompute quality via
`checkConnectionQuality` — which ignores the payload entirely. -/
def handlePong (now : Nat) (payload : Option Nat) (s : SocketState) : SocketState :=
  let ts := match payload with
    | some t => if t = 0 then s.lastPingTime else t
    | none => s.lastPingTime
  checkConnectionQuality now { s with lastLoggedLatency := now - ts }

/-- The synchronous body of `ensureConnected` (lines 96-134): already
connected resolves `true` at once with no new listener; a missing socket
resolves `false`; otherwise the call goes pending — `isConnecting` is set, a
connect attempt is triggered when the socket is disconnected, a 10 s timeout
is armed, and a one-shot `connect` listener is installed. -/
def ensureConnectedStart (s : SocketState) : EnsureOutcome × SocketState :=
  if s.socketExists && s.socketConnected then
    (EnsureOutcome.resolvedTrue, s)
  else if !s.socketExists then
    (EnsureOutcome.resolvedFalse, s)
  else
    let s1 := { s with isConnecting := true }
    let s2 := if !s1.socketConnected then { s1 with connectRequested := true } else s1
    (EnsureOutcome.pending, { s2 with extraConnectListeners := s2.extraConnectListeners + 1 })

/-- The `onConnect` listener of a pending `ensureConnected` call (lines
124-130): clear the timeout, clear `isConnecting`, resolve `true`, and remove
itself from the socket. -/
def ensureSettleConnect (s : SocketState) : Bool × SocketState :=
  (true, { s with
    isConnecting := false
    extraConnectListeners := s.extraConnectListeners - 1 })

/-- The timeout callback of a pending `ensureConnected` call (lines 118-122):
clear `isConnecting` and resolve `false`.  It does not call
`socket.off('connect', onConnect)`. -/
def ensureSettleTimeout (s : SocketState) : Bool × SocketState :=
  (false, { s with isConnecting := false })

/-- The effect cleanup (lines 268-280): clear the heartbeat interval (the ref
itself is left set), detach the six handlers, and `socket.disconnect()`. -/
def cleanup (s : SocketState) : SocketState :=
  let s1 := if s.pingRefSet then { s with liveIntervals := s.liveIntervals - 1 } else s
  { s1 with
    registeredHandlers :=
      (((((s1.registeredHandlers.erase "connect").erase "disconnect").erase
        "connect_error").erase "reconnect").erase "reconnect_attempt").erase "pong"
    socketConnected := false }

/-- Token cleared while a session exists: React runs the previous effect's
cleanup, then the effect body takes the `!userToken` branch (lines 146-157) —
disconnect and null the socket, reset the three state fields, and call
`setOnlineStatus(false)` once. -/
def tokenClearedTeardown (s : SocketState) : SocketState :=
  let s1 := cleanup s
  { s1 with
    socketExists := false
    socketConnected := false
    isConnected := false
    isConnecting := false
    connectionQuality := Quality.disconnected
    onlineCalls := s1.onlineCalls ++ [false] }

/-- Transport events delivered to the six handlers, interval ticks, and the
manager operations that mutate state (`ensureConnected` start and its timeout
settling; `getConnectionStatus` is pure and `sendMessage`/`join`/`leave` do
not touch the session state). -/
inductive Event where
  | connect (now : Nat)
  | disconnect (reason : String)
  | connectError
  | reconnect
  | reconnectAttempt
  | pong (now : Nat) (payload : Option Nat)
  | pingTick (now : Nat)
  | ensureStart
  | ensureTimeout
deriving DecidableEq, Repr

/-- socket.io-client event preconditions: `disconnect` is only emitted for a
connected socket; `connect_error` and `reconnect_attempt` belong to failed
connection attempts and are only emitted while not connected. -/
def validEvent (s : SocketState) : Event → Bool
  | Event.disconnect _ => s.socketConnected
  | Event.connectError => !s.socketConnected
  | Event.reconnectAttempt => !s.socketConnected
  | _ => true

/-- One step of the session: the transport updates its own `connected` flag,
the matching handler runs, and on a `connect` event every pending
`ensureConnected` listener fires and removes itself (each one clears
`isConnecting` and resolves `true`). -/
def step (s : SocketState) : Event → SocketState
  | Event.connect now =>
      let s1 := handleConnect now { s with socketConnected := true }
      { s1 with isConnecting := false, extraConnectListeners := 0 }
  | Event.disconnect reason => handleDisconnect reason { s with socketConnected := false }
  | Event.connectError => handleConnectError s
  | Event.reconnect => handleReconnect s
  | Event.reconnectAttempt => handleReconnectAttempt s
  | Event.pong now payload => handlePong now payload s
  | Event.pingTick now => sendPing now s
  | Event.ensureStart => (ensureConnectedStart s).2
  | Event.ensureTimeout => (ensureSettleTimeout s).2

/-- Reachability along valid event sequences from a given state. -/
inductive Reaches : SocketState → SocketState → Prop
  | refl (s : SocketState) : Reaches s s
  | next {s t : SocketState} (e : Event) :
      Reaches s t → validEvent t e = true → Reaches s (step t e)

/-- The inductive invariant of a session: the socket exists, the manager's
`isConnected` mirrors the transport flag, quality is `disconnected` whenever
not connected, the heartbeat ref and live-interval count track `isConnected`,
`isConnecting` is off while connected, and the six handlers stay attached. -/
def SessionInv (s : SocketState) : Prop :=
  s.socketExists = true ∧
  s.socketConnected = s.isConnected ∧
  (s.isConnected = false → s.connectionQuality = Quality.disconnected) ∧
  s.pingRefSet = s.isConnected ∧
  s.liveIntervals = (if s.isConnected then 1 else 0) ∧
  (s.isConnected = true → s.isConnecting = false) ∧
  s.registeredHandlers = subscribedEvents

theorem sessionInvInit : SessionInv initState := by
  refine ⟨rfl, rfl, fun _ => rfl, rfl, rfl, fun h => by simp [initState] at h, rfl⟩

set_option maxRecDepth 4000 in
theorem sessionInvStep {s : SocketState} (e : Event) (h : SessionInv s) (hv : validEvent s e = true) :
    SessionInv (step s e) := by
  obtain ⟨hE, hSC, hQ, hR, hL, hC, hH⟩ := h
  cases e with
  | connect now =>
      cases hic : s.isConnected <;>
        simp_all [SessionInv, step, handleConnect, sendPing, validEvent]
  | disconnect reason =>
      have hsc : s.socketConnected = true := by simpa [validEvent] using hv
      have hic : s.isConnected = true := by rw [← hSC]; exact hsc
      by_cases hreason : reason = "io client disconnect" <;>
        simp_all [SessionInv, step, handleDisconnect, clearPing] <;>
        split <;> simp_all
  | connectError =>
      simp_all [SessionInv, step, handleConnectError, validEvent]
  | reconnect =>
      simp_all [SessionInv, step, handleReconnect, validEvent]
  | reconnectAttempt =>
      simp_all [SessionInv, step, handleReconnectAttempt, validEvent]
  | pong now payload =>
      cases hic : s.isConnected <;>
        simp_all [SessionInv, step, handlePong, checkConnectionQuality] <;>
        split_ifs <;> simp_all
  | pingTick now =>
      cases hic : s.isConnected <;>
        simp_all [SessionInv, step, sendPing, validEvent]
  | ensureStart =>
      cases hic : s.isConnected <;>
        simp_all [SessionInv, step, ensureConnectedStart, validEvent]
  | ensureTimeout =>
      simp_all [SessionInv, step, ensureSettleTimeout, validEvent]

theorem reachInv {s : SocketState} (h : Reaches initState s) : SessionInv s := by
  induction h with
  | refl => exact sessionInvInit
  | next e _ hv ih => exact sessionInvStep e ih hv

theorem connectionState_eq_connected (s : SocketState) :
    connectionState s = ConnState.connected ↔ s.isConnected = true := by
  unfold connectionState
  split_ifs <;> simp_all

theorem onlineCalls_sendPing (now : Nat) (s : SocketState) :
    (sendPing now s).onlineCalls = s.onlineCalls := by
  unfold sendPing; split <;> rfl

theorem onlineCalls_clearPing (s : SocketState) :
    (clearPing s).onlineCalls = s.onlineCalls := by
  unfold clearPing; split <;> rfl

theorem onlineCalls_cleanup (s : SocketState) :
    (cleanup s).onlineCalls = s.onlineCalls := by
  unfold cleanup; split <;> rfl

theorem registeredHandlers_clearPing (s : SocketState) :
    (clearPing s).registeredHandlers = s.registeredHandlers := by
  unfold clearPing; split <;> rfl

/-- C1: along every valid sequence of transport events (connect, disconnect,
connect_error, reconnect, reconnect_attempt, pong), heartbeat ticks and
manager operations, whenever the connection state is not Connected the
quality field is Disconnected. -/
theorem c1_quality_disconnected_when_not_connected (s : SocketState)
    (h : Reaches initState s) (hns : connectionState s ≠ ConnState.connected) :
    s.connectionQuality = Quality.disconnected := by
  obtain ⟨hE, hSC, hQ, hR, hL, hC, hH⟩ := reachInv h
  apply hQ
  cases hic : s.isConnected
  · rfl
  · exact absurd ((connectionState_eq_connected s).mpr hic) hns

theorem c1_quality_disconnected_when_not_connected_witness :
    (step (step initState (Event.connect 100)) (Event.disconnect "transport close")).connectionQuality
      = Quality.disconnected :=
  c1_quality_disconnected_when_not_connected
    (step (step initState (Event.connect 100)) (Event.disconnect "transport close"))
    (Reaches.next (Event.disconnect "transport close")
      (Reaches.next (Event.connect 100) (Reaches.refl initState) (by decide))
      (by decide))
    (by decide)

theorem cleanup_liveIntervals (s : SocketState)
    (hR : s.pingRefSet = s.isConnected)
    (hL : s.liveIntervals = if s.isConnected then 1 else 0) :
    (cleanup s).liveIntervals = 0 := by
  unfold cleanup
  cases hic : s.isConnected
  · have hr : s.pingRefSet = false := by rw [hR, hic]
    simp only [hr, Bool.false_eq_true, if_false]
    rw [hL, hic]
    rfl
  · have hr : s.pingRefSet = true := by rw [hR, hic]
    simp only [hr, if_true]
    rw [hL, hic]
    rfl

theorem cleanup_registeredHandlers (s : SocketState) :
    (cleanup s).registeredHandlers =
      (((((s.registeredHandlers.erase "connect").erase "disconnect").erase
        "connect_error").erase "reconnect").erase "reconnect_attempt").erase "pong" := by
  unfold cleanup
  split <;> rfl

/-- C2: along every valid event sequence the heartbeat interval is active
exactly when the connection state is Connected (one live interval while
Connected — entry clears any pre-existing interval before registering, so it
is never double-registered — and zero otherwise, every transition away from
Connected cancelling it), and teardown leaves zero live intervals. -/
theorem c2_heartbeat_interval_iff_connected (s : SocketState)
    (h : Reaches initState s) :
    s.liveIntervals = (if connectionState s = ConnState.connected then 1 else 0) ∧
    (cleanup s).liveIntervals = 0 := by
  obtain ⟨hE, hSC, hQ, hR, hL, hC, hH⟩ := reachInv h
  constructor
  · cases hic : s.isConnected
    · rw [hL, hic]
      have : connectionState s ≠ ConnState.connected := by
        intro hcon
        rw [(connectionState_eq_connected s).mp hcon] at hic
        cases hic
      simp [this]
    · rw [hL, hic]
      simp [(connectionState_eq_connected s).mpr hic]
  · exact cleanup_liveIntervals s hR hL

theorem c2_heartbeat_interval_iff_connected_witness :
    (step (step initState (Event.connect 0)) (Event.disconnect "transport close")).liveIntervals
      = 0 ∧
    (step initState (Event.connect 0)).liveIntervals = 1 := by
  have h1 := c2_heartbeat_interval_iff_connected
    (step (step initState (Event.connect 0)) (Event.disconnect "transport close"))
    (Reaches.next (Event.disconnect "transport close")
      (Reaches.next (Event.connect 0) (Reaches.refl initState) (by decide)) (by decide))
  have h2 := c2_heartbeat_interval_iff_connected (step initState (Event.connect 0))
    (Reaches.next (Event.connect 0) (Reaches.refl initState) (by decide))
  refine ⟨?_, ?_⟩
  · rw [h1.1]; decide
  · rw [h2.1]; decide

/-- C9: the effect cleanup cancels the heartbeat interval, detaches all six
registered transport event listeners (connect, disconnect, connect_error,
reconnect, reconnect_attempt, pong) and closes the transport connection — all
within the cleanup routine itself. -/
theorem c9_teardown_releases_resources (s : SocketState) (h : Reaches initState s) :
    (cleanup s).liveIntervals = 0 ∧
    (cleanup s).registeredHandlers = [] ∧
    (cleanup s).socketConnected = false := by
  obtain ⟨hE, hSC, hQ, hR, hL, hC, hH⟩ := reachInv h
  refine ⟨cleanup_liveIntervals s hR hL, ?_, ?_⟩
  · rw [cleanup_registeredHandlers, hH]
    decide
  · unfold cleanup
    rfl

theorem c9_teardown_releases_resources_witness :
    (cleanup initState).liveIntervals = 0 ∧
    (cleanup initState).registeredHandlers = [] ∧
    (cleanup initState).socketConnected = false :=
  c9_teardown_releases_resources initState (Reaches.refl initState)

theorem handleDisconnect_isConnected (reason : String) (s : SocketState) :
    (handleDisconnect reason s).isConnected = false := by
  cases hps : s.pingRefSet <;>
    simp_all [handleDisconnect, clearPing] <;>
    split <;> (try split) <;> first | rfl | simp_all

theorem handleDisconnect_onlineCalls (reason : String) (s : SocketState) :
    (handleDisconnect reason s).onlineCalls = s.onlineCalls ++ [false] := by
  cases hps : s.pingRefSet <;>
    simp_all [handleDisconnect, clearPing] <;>
    split <;> (try split) <;> first | rfl | simp_all

theorem handleDisconnect_reconnectAttempts (reason : String) (s : SocketState)
    (hne : reason ≠ "io client disconnect") :
    (handleDisconnect reason s).reconnectAttempts = s.reconnectAttempts + 1 := by
  cases hps : s.pingRefSet <;>
    simp_all [handleDisconnect, clearPing] <;>
    split <;> (try split) <;> first | rfl | simp_all

theorem handleDisconnect_isConnecting (reason : String) (s : SocketState)
    (hne : reason ≠ "io client disconnect") :
    (handleDisconnect reason s).isConnecting =
      (if maxReconnectAttempts ≤ s.reconnectAttempts + 1 then false else true) := by
  cases hps : s.pingRefSet <;>
    simp_all [handleDisconnect, clearPing] <;>
    split <;> (try split) <;> first | rfl | simp_all

theorem handleDisconnect_local (s : SocketState) :
    (handleDisconnect "io client disconnect" s).reconnectAttempts = s.reconnectAttempts ∧
    (handleDisconnect "io client disconnect" s).isConnecting = s.isConnecting := by
  cases hps : s.pingRefSet <;>
    simp_all [handleDisconnect, clearPing]

theorem handleConnect_onlineCalls (now : Nat) (s : SocketState) :
    (handleConnect now s).onlineCalls = s.onlineCalls ++ [true] := by
  simp only [handleConnect, onlineCalls_sendPing]

theorem handleConnect_reconnectAttempts (now : Nat) (s : SocketState) :
    (handleConnect now s).reconnectAttempts = 0 := by
  simp only [handleConnect, sendPing]
  split <;> rfl

/-- C5: for the disconnect handler on any manager state, a non-local reason
increments the attempt counter, leaves the manager in Connecting while the
incremented counter stays below 10, and switches isConnecting off once the
counter reaches 10; the local-initiated reason moves to Disconnected (the
counter untouched and no reconnect tracked — isConnecting is not set, so it
stays off whenever no reconnect was already being tracked); and a successful
connect resets the counter to 0 from any value. -/
theorem c5_disconnect_reconnect_tracking (s : SocketState) (reason : String)
    (hne : reason ≠ "io client disconnect") :
    ((step s (Event.disconnect reason)).reconnectAttempts = s.reconnectAttempts + 1 ∧
     (s.reconnectAttempts + 1 < maxReconnectAttempts →
       connectionState (step s (Event.disconnect reason)) = ConnState.connecting) ∧
     (maxReconnectAttempts ≤ s.reconnectAttempts + 1 →
       (step s (Event.disconnect reason)).isConnecting = false)) ∧
    ((step s (Event.disconnect "io client disconnect")).reconnectAttempts
        = s.reconnectAttempts ∧
     (step s (Event.disconnect "io client disconnect")).isConnected = false ∧
     (step s (Event.disconnect "io client disconnect")).isConnecting = s.isConnecting ∧
     (s.isConnecting = false →
       connectionState (step s (Event.disconnect "io client disconnect"))
         = ConnState.disconnected)) ∧
    (∀ now, (step s (Event.connect now)).reconnectAttempts = 0) := by
  refine ⟨⟨?_, ?_, ?_⟩, ⟨?_, ?_, ?_, ?_⟩, fun now => ?_⟩
  · exact handleDisconnect_reconnectAttempts reason _ hne
  · intro hlt
    have h1 := handleDisconnect_isConnected reason { s with socketConnected := false }
    have h2 := handleDisconnect_isConnecting reason { s with socketConnected := false } hne
    have hcond : ¬ (maxReconnectAttempts ≤ s.reconnectAttempts + 1) := Nat.not_le.mpr hlt
    show connectionState (handleDisconnect reason { s with socketConnected := false })
      = ConnState.connecting
    unfold connectionState
    rw [h1, h2]
    simp [hcond]
  · intro hge
    have h2 := handleDisconnect_isConnecting reason { s with socketConnected := false } hne
    show (handleDisconnect reason { s with socketConnected := false }).isConnecting = false
    rw [h2]
    simp [hge]
  · exact (handleDisconnect_local _).1
  · exact handleDisconnect_isConnected "io client disconnect" _
  · exact (handleDisconnect_local _).2
  · intro hig
    have h1 := handleDisconnect_isConnected "io client disconnect"
      { s with socketConnected := false }
    have h2 := (handleDisconnect_local { s with socketConnected := false }).2
    show connectionState (handleDisconnect "io client disconnect"
      { s with socketConnected := false }) = ConnState.disconnected
    unfold connectionState
    rw [h1, h2]
    show (if ({ s with socketConnected := false } : SocketState).isConnecting = true
      then ConnState.connecting else ConnState.disconnected) = ConnState.disconnected
    rw [show ({ s with socketConnected := false } : SocketState).isConnecting
      = s.isConnecting from rfl, hig]
    simp
  · show (handleConnect now { s with socketConnected := true }).reconnectAttempts = 0
    exact handleConnect_reconnectAttempts now _

theorem c5_disconnect_reconnect_tracking_witness :
    (step { initState with socketConnected := true, isConnected := true, isConnecting := false, reconnectAttempts := 9 }
      (Event.disconnect "transport close")).reconnectAttempts = 10 ∧
    (step { initState with socketConnected := true, isConnected := true, isConnecting := false, reconnectAttempts := 9 }
      (Event.disconnect "transport close")).isConnecting = false ∧
    connectionState (step { initState with socketConnected := true, isConnected := true, isConnecting := false }
      (Event.disconnect "transport close")) = ConnState.connecting ∧
    connectionState (step { initState with socketConnected := true, isConnected := true, isConnecting := false }
      (Event.disconnect "io client disconnect")) = ConnState.disconnected ∧
    (step { initState with reconnectAttempts := 7 } (Event.connect 5)).reconnectAttempts = 0 := by
  have hne : "transport close" ≠ "io client disconnect" := by decide
  have h9 := c5_disconnect_reconnect_tracking
    { initState with socketConnected := true, isConnected := true, isConnecting := false, reconnectAttempts := 9 }
    "transport close" hne
  have h0 := c5_disconnect_reconnect_tracking
    { initState with socketConnected := true, isConnected := true, isConnecting := false }
    "transport close" hne
  have h7 := c5_disconnect_reconnect_tracking
    { initState with reconnectAttempts := 7 } "transport close" hne
  refine ⟨?_, ?_, ?_, ?_, ?_⟩
  · rw [h9.1.1]
  · exact h9.1.2.2 (by decide)
  · exact h0.1.2.1 (by decide)
  · exact h0.2.1.2.2.2 rfl
  · exact h7.2.2 5

/-- C3 counterexample: starting `ensureConnected` from the initial session
state (socket present, not connected) goes pending with one extra listener;
the 10 s timeout then resolves false but leaves the listener count one above
the pre-call baseline — the timeout path never calls off('connect'). -/
theorem c3_counterexample :
    (ensureConnectedStart initState).1 = EnsureOutcome.pending ∧
    (ensureSettleTimeout (ensureConnectedStart initState).2).1 = false ∧
    (ensureSettleTimeout (ensureConnectedStart initState).2).2.extraConnectListeners ≠
      initState.extraConnectListeners := by
  decide

/-- C3 (amended): a pending `ensureConnected` call installs one one-shot
connect listener; the success path removes it (listener count back to the
pre-call baseline), while the timeout path resolves false but does NOT remove
it — the count stays one above baseline. -/
theorem c3_listener_removed_only_on_success (s : SocketState)
    (hex : s.socketExists = true) (hsc : s.socketConnected = false) :
    (ensureConnectedStart s).1 = EnsureOutcome.pending ∧
    (ensureConnectedStart s).2.extraConnectListeners = s.extraConnectListeners + 1 ∧
    (ensureSettleConnect (ensureConnectedStart s).2).1 = true ∧
    (ensureSettleConnect (ensureConnectedStart s).2).2.extraConnectListeners
      = s.extraConnectListeners ∧
    (ensureSettleTimeout (ensureConnectedStart s).2).1 = false ∧
    (ensureSettleTimeout (ensureConnectedStart s).2).2.extraConnectListeners
      = s.extraConnectListeners + 1 := by
  simp [ensureConnectedStart, ensureSettleConnect, ensureSettleTimeout, hex, hsc]

theorem c3_listener_removed_only_on_success_witness :
    (ensureSettleConnect (ensureConnectedStart initState).2).2.extraConnectListeners = 0 ∧
    (ensureSettleTimeout (ensureConnectedStart initState).2).2.extraConnectListeners = 1 := by
  have h := c3_listener_removed_only_on_success initState rfl rfl
  exact ⟨h.2.2.2.1, h.2.2.2.2.2⟩

/-- C4 counterexample: in the initial state the manager is Connecting and a
connect_error event is valid, but handling it does not leave the state in
Connecting — `handleConnectError` sets isConnecting to false (even though it
does increment the attempt counter). -/
theorem c4_counterexample :
    connectionState initState = ConnState.connecting ∧
    validEvent initState Event.connectError = true ∧
    (step initState Event.connectError).reconnectAttempts
      = initState.reconnectAttempts + 1 ∧
    connectionState (step initState Event.connectError) ≠ ConnState.connecting := by
  decide

/-- C4 (amended): every connect_error event increments the reconnect attempt
count, but the state does not remain Connecting: `handleConnectError` clears
both flags, so the manager reads as Disconnected until the transport's next
reconnect_attempt event sets isConnecting again.  Auth failure still surfaces
only through this handler — the model has no other error channel. -/
theorem c4_connect_error_increments_but_disconnects (s : SocketState) :
    (step s Event.connectError).reconnectAttempts = s.reconnectAttempts + 1 ∧
    (step s Event.connectError).isConnected = false ∧
    (step s Event.connectError).isConnecting = false ∧
    connectionState (step s Event.connectError) = ConnState.disconnected := by
  refine ⟨rfl, rfl, rfl, ?_⟩
  simp [connectionState, step, handleConnectError]

/-- C6: `ensureConnected` resolves true immediately when the transport is
already connected (state untouched, no listener installed), resolves false
when no transport object exists, and otherwise goes pending after triggering
a connect attempt — the one-shot listener then resolves true if a connect
event arrives inside the 10 s window, and the timeout resolves false.  Every
path calls resolve with a boolean; the model's outcomes are total, mirroring
that the promise never rejects. -/
theorem c6_ensure_connected_contract (s : SocketState) :
    (s.socketExists = true → s.socketConnected = true →
      ensureConnectedStart s = (EnsureOutcome.resolvedTrue, s)) ∧
    (s.socketExists = false →
      ensureConnectedStart s = (EnsureOutcome.resolvedFalse, s)) ∧
    (s.socketExists = true → s.socketConnected = false →
      (ensureConnectedStart s).1 = EnsureOutcome.pending ∧
      (ensureConnectedStart s).2.connectRequested = true ∧
      (ensureSettleConnect (ensureConnectedStart s).2).1 = true ∧
      (ensureSettleTimeout (ensureConnectedStart s).2).1 = false) := by
  refine ⟨fun h1 h2 => ?_, fun h1 => ?_, fun h1 h2 => ?_⟩
  · simp [ensureConnectedStart, h1, h2]
  · simp [ensureConnectedStart, h1]
  · simp [ensureConnectedStart, ensureSettleConnect, ensureSettleTimeout, h1, h2]

theorem c6_ensure_connected_contract_witness :
    ensureConnectedStart (step initState (Event.connect 0))
        = (EnsureOutcome.resolvedTrue, step initState (Event.connect 0)) ∧
    (ensureSettleTimeout (ensureConnectedStart initState).2).1 = false := by
  refine ⟨(c6_ensure_connected_contract (step initState (Event.connect 0))).1
    (by decide) (by decide), ?_⟩
  exact ((c6_ensure_connected_contract initState).2.2 rfl rfl).2.2.2

/-- C7: handling a pong while connected classifies
elapsed = now - lastPingSentAt by the 500 ms / 2000 ms thresholds
(good / poor / disconnected), affecting only the quality field — the
transport stays connected and isConnected is untouched. -/
theorem c7_pong_quality_thresholds (s : SocketState) (now : Nat) (payload : Option Nat)
    (hex : s.socketExists = true) (hsc : s.socketConnected = true) :
    (now - s.lastPingTime < 500 →
      (step s (Event.pong now payload)).connectionQuality = Quality.good) ∧
    (500 ≤ now - s.lastPingTime → now - s.lastPingTime < 2000 →
      (step s (Event.pong now payload)).connectionQuality = Quality.poor) ∧
    (2000 ≤ now - s.lastPingTime →
      (step s (Event.pong now payload)).connectionQuality = Quality.disconnected) ∧
    (step s (Event.pong now payload)).socketConnected = true ∧
    (step s (Event.pong now payload)).isConnected = s.isConnected := by
  refine ⟨fun h1 => ?_, fun h1 h2 => ?_, fun h1 => ?_, ?_, ?_⟩
  · simp [step, handlePong, checkConnectionQuality, hex, hsc, h1]
  · have hn : ¬ (now - s.lastPingTime < 500) := Nat.not_lt.mpr h1
    simp [step, handlePong, checkConnectionQuality, hex, hsc, hn, h2]
  · have hn1 : ¬ (now - s.lastPingTime < 500) := by omega
    have hn2 : ¬ (now - s.lastPingTime < 2000) := by omega
    simp [step, handlePong, checkConnectionQuality, hex, hsc, hn1, hn2]
  · simp only [step, handlePong, checkConnectionQuality]
    split_ifs <;> exact hsc
  · simp only [step, handlePong, checkConnectionQuality]
    split_ifs <;> rfl

theorem c7_pong_quality_thresholds_witness :
    (step (step initState (Event.connect 0)) (Event.pong 700 none)).connectionQuality
      = Quality.poor := by
  have h := c7_pong_quality_thresholds (step initState (Event.connect 0)) 700 none
    (by decide) (by decide)
  exact h.2.1 (by decide) (by decide)

/-- C8: every transition into Connected (the connect handler) notifies the
presence store with online=true as part of the same handler, every transition
out of Connected via a disconnect event notifies online=false likewise, and
clearing the token while Connected delivers exactly one online=false — the
cleanup detaches the handlers before disconnecting, and the null-token effect
branch makes the single setOnlineStatus(false) call. -/
theorem c8_presence_store_notifications (s : SocketState) :
    (∀ now, (step s (Event.connect now)).onlineCalls = s.onlineCalls ++ [true]) ∧
    (∀ reason, (step s (Event.disconnect reason)).onlineCalls = s.onlineCalls ++ [false]) ∧
    (tokenClearedTeardown s).onlineCalls = s.onlineCalls ++ [false] := by
  refine ⟨fun now => ?_, fun reason => ?_, ?_⟩
  · show (handleConnect now { s with socketConnected := true }).onlineCalls
      = s.onlineCalls ++ [true]
    exact handleConnect_onlineCalls now _
  · exact handleDisconnect_onlineCalls reason _
  · show (cleanup s).onlineCalls ++ [false] = s.onlineCalls ++ [false]
    rw [onlineCalls_cleanup]

/-- C10: the quality resulting from a pong event does not depend on the
pong's payload — two pong events at the same instant in the same state, with
any payloads (missing or arbitrary timestamp), yield the same
connectionQuality, because quality is computed from lastPingTime and the
clock only (the payload reaches only the logged latency). -/
theorem c10_pong_quality_payload_independent (s : SocketState) (now : Nat)
    (p1 p2 : Option Nat) :
    (step s (Event.pong now p1)).connectionQuality
      = (step s (Event.pong now p2)).connectionQuality := by
  simp only [step, handlePong, checkConnectionQuality]
  split_ifs <;> rfl
